import Mathlib

/-
Verification of the NativeDevice JNI dispatch layer
(src/platform/java/jni/nativedevice.c).

Each JNI entry point is embedded as a pure Lean function from the call
environment and its (already marshalled) arguments to a result together with
a trace of the observable effects performed during the call: invocations of
the resource handle's lock and unlock functions, invocations of the rendering
backend (the fz_* calls), and the ReleaseStringUTFChars call in beginLayer.

Opaque JNI-side values (fz_path, fz_text, matrices, ...) are modelled as
token types: the dispatcher only passes them through to the backend, so the
carrier is irrelevant; what matters is which values reach which calls.
-/

namespace NativeDev

/- Maximum number of colorants supported by the library (FZ_MAX_COLORS). -/
def FZ_MAX_COLORS : Nat := 32

/- jfloat scalars, the blend mode and tile ids are passed through to the
backend untouched; an integer carrier keeps everything decidable. -/
abbrev JFloat := Int

structure Path where
  id : Nat
deriving DecidableEq

structure Text where
  id : Nat
deriving DecidableEq

structure StrokeState where
  id : Nat
deriving DecidableEq

structure Shade where
  id : Nat
deriving DecidableEq

structure Image where
  id : Nat
deriving DecidableEq

structure Matrix where
  id : Nat
deriving DecidableEq

structure Rect where
  id : Nat
deriving DecidableEq

structure ColorParams where
  id : Nat
deriving DecidableEq

/- A colorspace together with its colorant count, fz_colorspace_n(ctx, cs). -/
structure ColorSpace where
  id : Nat
  n : Nat
deriving DecidableEq

/- The C local `const char *name` in NativeDevice_beginLayer.  The source
declares it with no initializer, so it is either still uninitialized
(indeterminate) or the UTF string fetched by GetStringUTFChars. -/
inductive CString where
  | uninit
  | utf (s : String)
deriving DecidableEq

/- struct NativeDeviceInfo.  The lock/unlock function pointers are modelled
by the observable behaviour of the lock function on this call (nonzero
return = failure); the pixmap and the plane geometry fields
(xOffset/yOffset/width/height) are not read by any function in this file,
so they carry no data here. -/
structure NativeDeviceInfo where
  lockFails : Bool
deriving DecidableEq

/- The environment of one JNI dispatch call:
 - ctx    : get_context(env) returned non-NULL
 - dev    : from_Device(env, self) returned non-NULL (backend still alive)
 - isNativeDevice : IsInstanceOf(self, cls_NativeDevice)
 - nativeInfo : the NativeDeviceInfo pointer stored in fid_NativeDevice_nativeInfo
   (0 is modelled as none)
 - backendFails : whether the fz_* backend call raises inside fz_try
 - backendTileValue : the value fz_begin_tile_id returns when it succeeds
 - selfAsColorSpace : what from_ColorSpace(env, self) yields when applied to
   the device object itself (NativeDevice_beginGroup does exactly that)
 - utfFails : whether GetStringUTFChars returns NULL in beginLayer -/
structure Device where
  ctx : Bool
  dev : Bool
  isNativeDevice : Bool
  nativeInfo : Option NativeDeviceInfo
  backendFails : Bool
  backendTileValue : Int
  selfAsColorSpace : Option ColorSpace
  utfFails : Bool
deriving DecidableEq

/- One backend (fz_*) invocation with the resolved arguments it receives. -/
inductive BackendOp where
  | closeDevice
  | fillPath (path : Path) (evenOdd : Bool) (ctm : Matrix) (cs : Option ColorSpace)
      (color : Option (List JFloat)) (alpha : JFloat) (cp : ColorParams)
  | strokePath (path : Path) (stroke : StrokeState) (ctm : Matrix) (cs : Option ColorSpace)
      (color : Option (List JFloat)) (alpha : JFloat) (cp : ColorParams)
  | clipPath (path : Path) (evenOdd : Bool) (ctm : Matrix)
  | clipStrokePath (path : Path) (stroke : StrokeState) (ctm : Matrix)
  | fillText (text : Text) (ctm : Matrix) (cs : Option ColorSpace)
      (color : Option (List JFloat)) (alpha : JFloat) (cp : ColorParams)
  | strokeText (text : Text) (stroke : StrokeState) (ctm : Matrix) (cs : Option ColorSpace)
      (color : Option (List JFloat)) (alpha : JFloat) (cp : ColorParams)
  | clipText (text : Text) (ctm : Matrix)
  | clipStrokeText (text : Text) (stroke : StrokeState) (ctm : Matrix)
  | ignoreText (text : Text) (ctm : Matrix)
  | fillShade (shd : Shade) (ctm : Matrix) (alpha : JFloat) (cp : ColorParams)
  | fillImage (img : Image) (ctm : Matrix) (alpha : JFloat) (cp : ColorParams)
  | fillImageMask (img : Image) (ctm : Matrix) (cs : Option ColorSpace)
      (color : Option (List JFloat)) (alpha : JFloat) (cp : ColorParams)
  | clipImageMask (img : Image) (ctm : Matrix)
  | popClip
  | beginLayer (name : CString)
  | endLayer
  | beginMask (rect : Rect) (luminosity : Bool) (cs : Option ColorSpace)
      (color : Option (List JFloat)) (cp : ColorParams)
  | endMask
  | beginGroup (rect : Rect) (cs : Option ColorSpace) (isolated : Bool) (knockout : Bool)
      (blendmode : Int) (alpha : JFloat)
  | endGroup
  | beginTileId (area : Rect) (view : Rect) (xstep : JFloat) (ystep : JFloat)
      (ctm : Matrix) (id : Int)
  | endTile
deriving DecidableEq

/- Observable effects of one dispatch call, in order of occurrence. -/
inductive Event where
  | lockCall
  | unlockCall
  | backendCall (op : BackendOp)
  | releaseString (jname : Option String) (name : CString)
deriving DecidableEq

/- How the call returns to the host:
 - ok          : plain return, no pending exception
 - invalidArg  : jni_throw_arg was called with the given message
 - lockFailed  : the handle's lock function failed (its own exception pending)
 - backendError: fz_catch ran and jni_rethrow surfaced the backend error
 - hostFailure : a JNI helper itself failed (GetStringUTFChars returned NULL) -/
inductive Result where
  | ok
  | invalidArg (msg : String)
  | lockFailed
  | backendError
  | hostFailure
deriving DecidableEq

/- cs ? fz_colorspace_n(ctx, cs) : FZ_MAX_COLORS -/
def expectedChannels : Option ColorSpace → Nat
  | some cs => cs.n
  | none => FZ_MAX_COLORS

/- Modelled from the spec: the helper `from_jfloatArray` is defined outside
this file.  Per the spec it validates that a supplied color array's length
equals the expected channel count, signalling InvalidArgument (and returning
failure to its caller) on mismatch before the backend or the lock is touched;
an absent array is accepted and the color buffer zero-filled. -/
def from_jfloatArray (expected : Nat) (jcolor : Option (List JFloat)) : Bool :=
  match jcolor with
  | none => true
  | some arr => decide (arr.length = expected)

/- Modelled from the spec: the message of the InvalidArgument error raised by
`from_jfloatArray` on a channel-count mismatch. -/
def colorLengthMsg : String := "color array length must match colorspace channel count"

/- static NativeDeviceInfo *lockNativeDevice(JNIEnv *env, jobject self, int *err)
Returns (info, err, events).  If self is not a NativeDevice, or the stored
info pointer is 0, there is nothing to lock: (NULL, 0).  Otherwise the object
field is refreshed (not an observable effect modelled here) and info->lock is
invoked; a nonzero return yields (NULL, 1). -/
def lockNativeDevice (d : Device) : Option NativeDeviceInfo × Bool × List Event :=
  if !d.isNativeDevice then (none, false, [])
  else
    match d.nativeInfo with
    | none => (none, false, [])
    | some info =>
      if info.lockFails then (none, true, [Event.lockCall])
      else (some info, false, [Event.lockCall])

/- static void unlockNativeDevice: calls info->unlock only when info != NULL. -/
def unlockNativeDevice : Option NativeDeviceInfo → List Event
  | none => []
  | some _ => [Event.unlockCall]

/- The dispatch tail every JNI operation repeats verbatim:
     info = lockNativeDevice(env, self, &err);
     if (err) return;
     fz_try(ctx) <backend call>
     fz_always(ctx) { <rel>; unlockNativeDevice(env, info); }
     fz_catch(ctx) return jni_rethrow(env, ctx);
`rel` is the extra fz_always work (empty everywhere except beginLayer, whose
always block also releases the UTF string before unlocking). -/
def runLockedRel (d : Device) (op : BackendOp) (rel : List Event) : Result × List Event :=
  let L := lockNativeDevice d
  if L.2.1 then (Result.lockFailed, L.2.2)
  else
    let evs := L.2.2 ++ [Event.backendCall op] ++ rel ++ unlockNativeDevice L.1
    if d.backendFails then (Result.backendError, evs) else (Result.ok, evs)

def runLocked (d : Device) (op : BackendOp) : Result × List Event :=
  runLockedRel d op []

def NativeDevice_close (d : Device) : Result × List Event :=
  if !d.ctx || !d.dev then (Result.ok, [])
  else runLocked d BackendOp.closeDevice

def NativeDevice_fillPath (d : Device) (jpath : Option Path) (evenOdd : Bool)
    (jctm : Matrix) (jcs : Option ColorSpace) (jcolor : Option (List JFloat))
    (alpha : JFloat) (jcp : ColorParams) : Result × List Event :=
  if !d.ctx || !d.dev then (Result.ok, [])
  else
    match jpath with
    | none => (Result.invalidArg "path must not be null", [])
    | some path =>
      if !from_jfloatArray (expectedChannels jcs) jcolor then
        (Result.invalidArg colorLengthMsg, [])
      else runLocked d (BackendOp.fillPath path evenOdd jctm jcs jcolor alpha jcp)

def NativeDevice_strokePath (d : Device) (jpath : Option Path) (jstroke : Option StrokeState)
    (jctm : Matrix) (jcs : Option ColorSpace) (jcolor : Option (List JFloat))
    (alpha : JFloat) (jcp : ColorParams) : Result × List Event :=
  if !d.ctx || !d.dev then (Result.ok, [])
  else
    match jpath with
    | none => (Result.invalidArg "path must not be null", [])
    | some path =>
      match jstroke with
      | none => (Result.invalidArg "stroke must not be null", [])
      | some stroke =>
        if !from_jfloatArray (expectedChannels jcs) jcolor then
          (Result.invalidArg colorLengthMsg, [])
        else runLocked d (BackendOp.strokePath path stroke jctm jcs jcolor alpha jcp)

def NativeDevice_clipPath (d : Device) (jpath : Option Path) (evenOdd : Bool)
    (jctm : Matrix) : Result × List Event :=
  if !d.ctx || !d.dev then (Result.ok, [])
  else
    match jpath with
    | none => (Result.invalidArg "path must not be null", [])
    | some path => runLocked d (BackendOp.clipPath path evenOdd jctm)

def NativeDevice_clipStrokePath (d : Device) (jpath : Option Path)
    (jstroke : Option StrokeState) (jctm : Matrix) : Result × List Event :=
  if !d.ctx || !d.dev then (Result.ok, [])
  else
    match jpath with
    | none => (Result.invalidArg "path must not be null", [])
    | some path =>
      match jstroke with
      | none => (Result.invalidArg "stroke must not be null", [])
      | some stroke => runLocked d (BackendOp.clipStrokePath path stroke jctm)

def NativeDevice_fillText (d : Device) (jtext : Option Text) (jctm : Matrix)
    (jcs : Option ColorSpace) (jcolor : Option (List JFloat)) (alpha : JFloat)
    (jcp : ColorParams) : Result × List Event :=
  if !d.ctx || !d.dev then (Result.ok, [])
  else
    match jtext with
    | none => (Result.invalidArg "text must not be null", [])
    | some text =>
      if !from_jfloatArray (expectedChannels jcs) jcolor then
        (Result.invalidArg colorLengthMsg, [])
      else runLocked d (BackendOp.fillText text jctm jcs jcolor alpha jcp)

def NativeDevice_strokeText (d : Device) (jtext : Option Text) (jstroke : Option StrokeState)
    (jctm : Matrix) (jcs : Option ColorSpace) (jcolor : Option (List JFloat))
    (alpha : JFloat) (jcp : ColorParams) : Result × List Event :=
  if !d.ctx || !d.dev then (Result.ok, [])
  else
    match jtext with
    | none => (Result.invalidArg "text must not be null", [])
    | some text =>
      match jstroke with
      | none => (Result.invalidArg "stroke must not be null", [])
      | some stroke =>
        if !from_jfloatArray (expectedChannels jcs) jcolor then
          (Result.invalidArg colorLengthMsg, [])
        else runLocked d (BackendOp.strokeText text stroke jctm jcs jcolor alpha jcp)

def NativeDevice_clipText (d : Device) (jtext : Option Text) (jctm : Matrix) :
    Result × List Event :=
  if !d.ctx || !d.dev then (Result.ok, [])
  else
    match jtext with
    | none => (Result.invalidArg "text must not be null", [])
    | some text => runLocked d (BackendOp.clipText text jctm)

def NativeDevice_clipStrokeText (d : Device) (jtext : Option Text)
    (jstroke : Option StrokeState) (jctm : Matrix) : Result × List Event :=
  if !d.ctx || !d.dev then (Result.ok, [])
  else
    match jtext with
    | none => (Result.invalidArg "text must not be null", [])
    | some text =>
      match jstroke with
      | none => (Result.invalidArg "stroke must not be null", [])
      | some stroke => runLocked d (BackendOp.clipStrokeText text stroke jctm)

def NativeDevice_ignoreText (d : Device) (jtext : Option Text) (jctm : Matrix) :
    Result × List Event :=
  if !d.ctx || !d.dev then (Result.ok, [])
  else
    match jtext with
    | none => (Result.invalidArg "text must not be null", [])
    | some text => runLocked d (BackendOp.ignoreText text jctm)

def NativeDevice_fillShade (d : Device) (jshd : Option Shade) (jctm : Matrix)
    (alpha : JFloat) (jcp : ColorParams) : Result × List Event :=
  if !d.ctx || !d.dev then (Result.ok, [])
  else
    match jshd with
    | none => (Result.invalidArg "shade must not be null", [])
    | some shd => runLocked d (BackendOp.fillShade shd jctm alpha jcp)

def NativeDevice_fillImage (d : Device) (jimg : Option Image) (jctm : Matrix)
    (alpha : JFloat) (jcp : ColorParams) : Result × List Event :=
  if !d.ctx || !d.dev then (Result.ok, [])
  else
    match jimg with
    | none => (Result.invalidArg "image must not be null", [])
    | some img => runLocked d (BackendOp.fillImage img jctm alpha jcp)

def NativeDevice_fillImageMask (d : Device) (jimg : Option Image) (jctm : Matrix)
    (jcs : Option ColorSpace) (jcolor : Option (List JFloat)) (alpha : JFloat)
    (jcp : ColorParams) : Result × List Event :=
  if !d.ctx || !d.dev then (Result.ok, [])
  else
    match jimg with
    | none => (Result.invalidArg "image must not be null", [])
    | some img =>
      if !from_jfloatArray (expectedChannels jcs) jcolor then
        (Result.invalidArg colorLengthMsg, [])
      else runLocked d (BackendOp.fillImageMask img jctm jcs jcolor alpha jcp)

def NativeDevice_clipImageMask (d : Device) (jimg : Option Image) (jctm : Matrix) :
    Result × List Event :=
  if !d.ctx || !d.dev then (Result.ok, [])
  else
    match jimg with
    | none => (Result.invalidArg "image must not be null", [])
    | some img => runLocked d (BackendOp.clipImageMask img jctm)

def NativeDevice_popClip (d : Device) : Result × List Event :=
  if !d.ctx || !d.dev then (Result.ok, [])
  else runLocked d BackendOp.popClip

/- NativeDevice_beginLayer: `const char *name;` carries no initializer.  It is
assigned only when jname != NULL (from GetStringUTFChars, which may itself
fail), then passed to fz_begin_layer unconditionally, so a NULL jname sends
the uninitialized local to the backend; the fz_always block calls
ReleaseStringUTFChars(env, jname, name) before unlocking, with jname possibly
NULL as well. -/
def NativeDevice_beginLayer (d : Device) (jname : Option String) : Result × List Event :=
  if !d.ctx || !d.dev then (Result.ok, [])
  else
    match jname with
    | some s =>
      if d.utfFails then (Result.hostFailure, [])
      else
        runLockedRel d (BackendOp.beginLayer (CString.utf s))
          [Event.releaseString (some s) (CString.utf s)]
    | none =>
      runLockedRel d (BackendOp.beginLayer CString.uninit)
        [Event.releaseString none CString.uninit]

def NativeDevice_endLayer (d : Device) : Result × List Event :=
  if !d.ctx || !d.dev then (Result.ok, [])
  else runLocked d BackendOp.endLayer

def NativeDevice_beginMask (d : Device) (jrect : Rect) (luminosity : Bool)
    (jcs : Option ColorSpace) (jcolor : Option (List JFloat)) (jcp : ColorParams) :
    Result × List Event :=
  if !d.ctx || !d.dev then (Result.ok, [])
  else
    if !from_jfloatArray (expectedChannels jcs) jcolor then
      (Result.invalidArg colorLengthMsg, [])
    else runLocked d (BackendOp.beginMask jrect luminosity jcs jcolor jcp)

def NativeDevice_endMask (d : Device) : Result × List Event :=
  if !d.ctx || !d.dev then (Result.ok, [])
  else runLocked d BackendOp.endMask

/- NativeDevice_beginGroup: source line 569 reads
     fz_colorspace *cs = from_ColorSpace(env, self);
resolving the colorspace from the device object itself; the jcs parameter is
never used. -/
def NativeDevice_beginGroup (d : Device) (jrect : Rect) (jcs : Option ColorSpace)
    (isolated : Bool) (knockout : Bool) (blendmode : Int) (alpha : JFloat) :
    Result × List Event :=
  if !d.ctx || !d.dev then (Result.ok, [])
  else
    runLocked d
      (BackendOp.beginGroup jrect d.selfAsColorSpace isolated knockout blendmode alpha)

def NativeDevice_endGroup (d : Device) : Result × List Event :=
  if !d.ctx || !d.dev then (Result.ok, [])
  else runLocked d BackendOp.endGroup

/- NativeDevice_beginTile: `int i = 0;` then i = fz_begin_tile_id(...) inside
fz_try; fz_catch returns 0; lock failure and a stale device also return 0,
so the backend token is surfaced only on full success. -/
def NativeDevice_beginTile (d : Device) (jarea : Rect) (jview : Rect) (xstep : JFloat)
    (ystep : JFloat) (jctm : Matrix) (id : Int) : Int × (Result × List Event) :=
  if !d.ctx || !d.dev then (0, Result.ok, [])
  else
    let r := runLocked d (BackendOp.beginTileId jarea jview xstep ystep jctm id)
    (if r.1 = Result.ok then d.backendTileValue else 0, r)

def NativeDevice_endTile (d : Device) : Result × List Event :=
  if !d.ctx || !d.dev then (Result.ok, [])
  else runLocked d BackendOp.endTile

/- One JNI dispatch entry point together with its call arguments. -/
inductive Op where
  | close
  | fillPath (jpath : Option Path) (evenOdd : Bool) (jctm : Matrix) (jcs : Option ColorSpace)
      (jcolor : Option (List JFloat)) (alpha : JFloat) (jcp : ColorParams)
  | strokePath (jpath : Option Path) (jstroke : Option StrokeState) (jctm : Matrix)
      (jcs : Option ColorSpace) (jcolor : Option (List JFloat)) (alpha : JFloat)
      (jcp : ColorParams)
  | clipPath (jpath : Option Path) (evenOdd : Bool) (jctm : Matrix)
  | clipStrokePath (jpath : Option Path) (jstroke : Option StrokeState) (jctm : Matrix)
  | fillText (jtext : Option Text) (jctm : Matrix) (jcs : Option ColorSpace)
      (jcolor : Option (List JFloat)) (alpha : JFloat) (jcp : ColorParams)
  | strokeText (jtext : Option Text) (jstroke : Option StrokeState) (jctm : Matrix)
      (jcs : Option ColorSpace) (jcolor : Option (List JFloat)) (alpha : JFloat)
      (jcp : ColorParams)
  | clipText (jtext : Option Text) (jctm : Matrix)
  | clipStrokeText (jtext : Option Text) (jstroke : Option StrokeState) (jctm : Matrix)
  | ignoreText (jtext : Option Text) (jctm : Matrix)
  | fillShade (jshd : Option Shade) (jctm : Matrix) (alpha : JFloat) (jcp : ColorParams)
  | fillImage (jimg : Option Image) (jctm : Matrix) (alpha : JFloat) (jcp : ColorParams)
  | fillImageMask (jimg : Option Image) (jctm : Matrix) (jcs : Option ColorSpace)
      (jcolor : Option (List JFloat)) (alpha : JFloat) (jcp : ColorParams)
  | clipImageMask (jimg : Option Image) (jctm : Matrix)
  | popClip
  | beginLayer (jname : Option String)
  | endLayer
  | beginMask (jrect : Rect) (luminosity : Bool) (jcs : Option ColorSpace)
      (jcolor : Option (List JFloat)) (jcp : ColorParams)
  | endMask
  | beginGroup (jrect : Rect) (jcs : Option ColorSpace) (isolated : Bool) (knockout : Bool)
      (blendmode : Int) (alpha : JFloat)
  | endGroup
  | beginTile (jarea : Rect) (jview : Rect) (xstep : JFloat) (ystep : JFloat)
      (jctm : Matrix) (id : Int)
  | endTile
deriving DecidableEq

/- Uniform view of every dispatch entry point (beginTile's jint return is
handled by NativeDevice_beginTile itself; dispatch exposes its result and
trace). -/
def dispatch (d : Device) : Op → Result × List Event
  | Op.close => NativeDevice_close d
  | Op.fillPath p eo m cs col a cp => NativeDevice_fillPath d p eo m cs col a cp
  | Op.strokePath p st m cs col a cp => NativeDevice_strokePath d p st m cs col a cp
  | Op.clipPath p eo m => NativeDevice_clipPath d p eo m
  | Op.clipStrokePath p st m => NativeDevice_clipStrokePath d p st m
  | Op.fillText t m cs col a cp => NativeDevice_fillText d t m cs col a cp
  | Op.strokeText t st m cs col a cp => NativeDevice_strokeText d t st m cs col a cp
  | Op.clipText t m => NativeDevice_clipText d t m
  | Op.clipStrokeText t st m => NativeDevice_clipStrokeText d t st m
  | Op.ignoreText t m => NativeDevice_ignoreText d t m
  | Op.fillShade s m a cp => NativeDevice_fillShade d s m a cp
  | Op.fillImage i m a cp => NativeDevice_fillImage d i m a cp
  | Op.fillImageMask i m cs col a cp => NativeDevice_fillImageMask d i m cs col a cp
  | Op.clipImageMask i m => NativeDevice_clipImageMask d i m
  | Op.popClip => NativeDevice_popClip d
  | Op.beginLayer n => NativeDevice_beginLayer d n
  | Op.endLayer => NativeDevice_endLayer d
  | Op.beginMask r l cs col cp => NativeDevice_beginMask d r l cs col cp
  | Op.endMask => NativeDevice_endMask d
  | Op.beginGroup r cs iso ko bm a => NativeDevice_beginGroup d r cs iso ko bm a
  | Op.endGroup => NativeDevice_endGroup d
  | Op.beginTile a v xs ys m id => (NativeDevice_beginTile d a v xs ys m id).2
  | Op.endTile => NativeDevice_endTile d

/- Effects of NativeDevice_finalize. -/
inductive FinEvent where
  | superFinalize
  | dropPixmap
  | freeInfo
deriving DecidableEq

/- State read by the finalizer: the context and the stored nativeInfo field. -/
structure FinState where
  ctx : Bool
  nativeInfo : Option NativeDeviceInfo
deriving DecidableEq

/- NativeDevice_finalize: calls super, then, if the stored pointer is nonzero,
drops the pixmap and frees the info.  The function never writes
fid_NativeDevice_nativeInfo, so the state it leaves behind is unchanged. -/
def NativeDevice_finalize (s : FinState) : FinState × List FinEvent :=
  if !s.ctx then (s, [])
  else
    match s.nativeInfo with
    | none => (s, [FinEvent.superFinalize])
    | some _ => (s, [FinEvent.superFinalize, FinEvent.dropPixmap, FinEvent.freeInfo])

/- Trace bookkeeping. -/
def countIf {α : Type} (p : α → Bool) (l : List α) : Nat := (l.filter p).length

def isLock : Event → Bool
  | Event.lockCall => true
  | _ => false

def isUnlock : Event → Bool
  | Event.unlockCall => true
  | _ => false

def isBackend : Event → Bool
  | Event.backendCall _ => true
  | _ => false

def isDropPixmap : FinEvent → Bool
  | FinEvent.dropPixmap => true
  | _ => false

def isFreeInfo : FinEvent → Bool
  | FinEvent.freeInfo => true
  | _ => false

lemma countIf_append {α : Type} (p : α → Bool) (l1 l2 : List α) :
    countIf p (l1 ++ l2) = countIf p l1 + countIf p l2 := by
  simp [countIf, List.filter_append]

lemma lockNativeDevice_nohandle (d : Device)
    (h : d.isNativeDevice = false ∨ d.nativeInfo = none) :
    lockNativeDevice d = (none, false, []) := by
  rcases h with h | h
  · simp [lockNativeDevice, h]
  · cases hni : d.isNativeDevice <;> simp [lockNativeDevice, h, hni]

lemma lockNativeDevice_ok (d : Device) (info : NativeDeviceInfo)
    (h1 : d.isNativeDevice = true) (h2 : d.nativeInfo = some info)
    (h3 : info.lockFails = false) :
    lockNativeDevice d = (some info, false, [Event.lockCall]) := by
  simp [lockNativeDevice, h1, h2, h3]

lemma lockNativeDevice_fail (d : Device) (info : NativeDeviceInfo)
    (h1 : d.isNativeDevice = true) (h2 : d.nativeInfo = some info)
    (h3 : info.lockFails = true) :
    lockNativeDevice d = (none, true, [Event.lockCall]) := by
  simp [lockNativeDevice, h1, h2, h3]

lemma runLockedRel_ok (d : Device) (info : NativeDeviceInfo) (op : BackendOp)
    (rel : List Event) (h1 : d.isNativeDevice = true) (h2 : d.nativeInfo = some info)
    (h3 : info.lockFails = false) :
    runLockedRel d op rel =
      ((if d.backendFails then Result.backendError else Result.ok),
        [Event.lockCall] ++ [Event.backendCall op] ++ rel ++ [Event.unlockCall]) := by
  rw [runLockedRel, lockNativeDevice_ok d info h1 h2 h3]
  cases hb : d.backendFails <;> simp [unlockNativeDevice, hb]

lemma runLockedRel_fail (d : Device) (info : NativeDeviceInfo) (op : BackendOp)
    (rel : List Event) (h1 : d.isNativeDevice = true) (h2 : d.nativeInfo = some info)
    (h3 : info.lockFails = true) :
    runLockedRel d op rel = (Result.lockFailed, [Event.lockCall]) := by
  rw [runLockedRel, lockNativeDevice_fail d info h1 h2 h3]
  simp

lemma runLockedRel_nohandle (d : Device) (op : BackendOp) (rel : List Event)
    (h : d.isNativeDevice = false ∨ d.nativeInfo = none) :
    runLockedRel d op rel =
      ((if d.backendFails then Result.backendError else Result.ok),
        [Event.backendCall op] ++ rel) := by
  rw [runLockedRel, lockNativeDevice_nohandle d h]
  cases hb : d.backendFails <;> simp [unlockNativeDevice, hb]

/- Every dispatch call either exits before the lock with an empty trace (and
a result that is neither a lock failure nor a backend error), or is exactly
one runLockedRel tail whose extra always-work touches neither the lock, the
unlock, nor the backend. -/
lemma dispatch_shape (d : Device) (op : Op) :
    ((dispatch d op).2 = [] ∧ (dispatch d op).1 ≠ Result.lockFailed ∧
      (dispatch d op).1 ≠ Result.backendError) ∨
    (∃ bop rel, dispatch d op = runLockedRel d bop rel ∧
      countIf isLock rel = 0 ∧ countIf isUnlock rel = 0 ∧ countIf isBackend rel = 0) := by
  cases op <;>
    simp only [dispatch, NativeDevice_close, NativeDevice_fillPath, NativeDevice_strokePath,
      NativeDevice_clipPath, NativeDevice_clipStrokePath, NativeDevice_fillText,
      NativeDevice_strokeText, NativeDevice_clipText, NativeDevice_clipStrokeText,
      NativeDevice_ignoreText, NativeDevice_fillShade, NativeDevice_fillImage,
      NativeDevice_fillImageMask, NativeDevice_clipImageMask, NativeDevice_popClip,
      NativeDevice_beginLayer, NativeDevice_endLayer, NativeDevice_beginMask,
      NativeDevice_endMask, NativeDevice_beginGroup, NativeDevice_endGroup,
      NativeDevice_beginTile, NativeDevice_endTile, runLocked] <;>
    (repeat' split) <;>
    first
      | exact Or.inl ⟨rfl, by simp, by simp⟩
      | (right; refine ⟨_, _, rfl, ?_, ?_, ?_⟩ <;> rfl)

/- Concrete instances used by witnesses and the bug-exhibiting theorems. -/

def csGray : ColorSpace := { id := 0, n := 1 }

def csRGB : ColorSpace := { id := 1, n := 3 }

def path0 : Path := { id := 0 }

def m0 : Matrix := { id := 0 }

def cp0 : ColorParams := { id := 0 }

def rect0 : Rect := { id := 0 }

def info0 : NativeDeviceInfo := { lockFails := false }

def infoBad : NativeDeviceInfo := { lockFails := true }

/- A live device with no resource handle (e.g. one backing a DisplayList). -/
def dPlain : Device :=
  { ctx := true, dev := true, isNativeDevice := false, nativeInfo := none,
    backendFails := false, backendTileValue := 0, selfAsColorSpace := none,
    utfFails := false }

/- A live device carrying a resource handle whose lock succeeds. -/
def dLocked : Device :=
  { dPlain with isNativeDevice := true, nativeInfo := some info0 }

/- Same handle-carrying device, but the backend call fails. -/
def dLockedFail : Device := { dLocked with backendFails := true }

/- Handle present, lock fails. -/
def dLockErr : Device := { dLocked with nativeInfo := some infoBad }

/- Stale device: the context is gone. -/
def dStale : Device := { dPlain with ctx := false }

/- Handle-free device whose backend returns tile token 42. -/
def dTile : Device := { dPlain with backendTileValue := 42 }

def finS : FinState := { ctx := true, nativeInfo := some info0 }

/-- C1: for every dispatch operation on a device carrying a resource handle whose
lock succeeds, unlockNativeDevice (and hence the handle's unlock function) runs
exactly once per lock acquired before the operation returns — the trace carries as
many unlock calls as lock calls and at most one lock — whether the backend call
succeeds or raises (the device's backendFails flag is unconstrained). -/
theorem C1_unlock_exactly_once (d : Device) (op : Op) (info : NativeDeviceInfo)
    (h1 : d.isNativeDevice = true) (h2 : d.nativeInfo = some info)
    (h3 : info.lockFails = false) :
    countIf isUnlock (dispatch d op).2 = countIf isLock (dispatch d op).2 ∧
    countIf isLock (dispatch d op).2 ≤ 1 := by
  rcases dispatch_shape d op with ⟨he, _, _⟩ | ⟨bop, rel, heq, hl, hu, _⟩
  · rw [he]; exact ⟨rfl, by simp [countIf]⟩
  · rw [heq, runLockedRel_ok d info bop rel h1 h2 h3]
    refine ⟨?_, ?_⟩
    · show countIf isUnlock
          ([Event.lockCall] ++ [Event.backendCall bop] ++ rel ++ [Event.unlockCall]) =
        countIf isLock
          ([Event.lockCall] ++ [Event.backendCall bop] ++ rel ++ [Event.unlockCall])
      simp only [countIf_append, hu, hl]
      rfl
    · show countIf isLock
          ([Event.lockCall] ++ [Event.backendCall bop] ++ rel ++ [Event.unlockCall]) ≤ 1
      simp only [countIf_append, hl]
      exact Nat.le.refl

theorem C1_witness :
    countIf isUnlock (dispatch dLockedFail Op.popClip).2 =
      countIf isLock (dispatch dLockedFail Op.popClip).2 ∧
    countIf isLock (dispatch dLockedFail Op.popClip).2 ≤ 1 :=
  C1_unlock_exactly_once dLockedFail Op.popClip info0 rfl rfl rfl

/-- C2: on a live device, every dispatch operation with a required resource argument
rejects a null value for it with an InvalidArgument error naming the missing
parameter, and the trace is empty: neither the lock nor the backend is invoked. -/
theorem C2_null_required_argument (d : Device) (hc : d.ctx = true) (hd : d.dev = true) :
    (∀ eo m cs col a cp, dispatch d (Op.fillPath none eo m cs col a cp) =
      (Result.invalidArg "path must not be null", [])) ∧
    (∀ st m cs col a cp, dispatch d (Op.strokePath none st m cs col a cp) =
      (Result.invalidArg "path must not be null", [])) ∧
    (∀ p m cs col a cp, dispatch d (Op.strokePath (some p) none m cs col a cp) =
      (Result.invalidArg "stroke must not be null", [])) ∧
    (∀ eo m, dispatch d (Op.clipPath none eo m) =
      (Result.invalidArg "path must not be null", [])) ∧
    (∀ st m, dispatch d (Op.clipStrokePath none st m) =
      (Result.invalidArg "path must not be null", [])) ∧
    (∀ p m, dispatch d (Op.clipStrokePath (some p) none m) =
      (Result.invalidArg "stroke must not be null", [])) ∧
    (∀ m cs col a cp, dispatch d (Op.fillText none m cs col a cp) =
      (Result.invalidArg "text must not be null", [])) ∧
    (∀ st m cs col a cp, dispatch d (Op.strokeText none st m cs col a cp) =
      (Result.invalidArg "text must not be null", [])) ∧
    (∀ t m cs col a cp, dispatch d (Op.strokeText (some t) none m cs col a cp) =
      (Result.invalidArg "stroke must not be null", [])) ∧
    (∀ m, dispatch d (Op.clipText none m) =
      (Result.invalidArg "text must not be null", [])) ∧
    (∀ st m, dispatch d (Op.clipStrokeText none st m) =
      (Result.invalidArg "text must not be null", [])) ∧
    (∀ t m, dispatch d (Op.clipStrokeText (some t) none m) =
      (Result.invalidArg "stroke must not be null", [])) ∧
    (∀ m, dispatch d (Op.ignoreText none m) =
      (Result.invalidArg "text must not be null", [])) ∧
    (∀ m a cp, dispatch d (Op.fillShade none m a cp) =
      (Result.invalidArg "shade must not be null", [])) ∧
    (∀ m a cp, dispatch d (Op.fillImage none m a cp) =
      (Result.invalidArg "image must not be null", [])) ∧
    (∀ m cs col a cp, dispatch d (Op.fillImageMask none m cs col a cp) =
      (Result.invalidArg "image must not be null", [])) ∧
    (∀ m, dispatch d (Op.clipImageMask none m) =
      (Result.invalidArg "image must not be null", [])) := by
  refine ⟨?_, ?_, ?_, ?_, ?_, ?_, ?_, ?_, ?_, ?_, ?_, ?_, ?_, ?_, ?_, ?_, ?_⟩ <;>
    intros <;>
    simp [dispatch, NativeDevice_fillPath, NativeDevice_strokePath, NativeDevice_clipPath,
      NativeDevice_clipStrokePath, NativeDevice_fillText, NativeDevice_strokeText,
      NativeDevice_clipText, NativeDevice_clipStrokeText, NativeDevice_ignoreText,
      NativeDevice_fillShade, NativeDevice_fillImage, NativeDevice_fillImageMask,
      NativeDevice_clipImageMask, hc, hd]

theorem C2_witness :
    dispatch dPlain (Op.fillPath none false m0 none none 0 cp0) =
      (Result.invalidArg "path must not be null", []) :=
  (C2_null_required_argument dPlain rfl rfl).1 false m0 none none 0 cp0

/-- C3: on a live device, every operation taking a color array (fillPath, strokePath,
fillText, strokeText, fillImageMask, beginMask) rejects a supplied array whose
length differs from the given colorspace's channel count — or from FZ_MAX_COLORS
when no colorspace is given — with InvalidArgument and an empty trace: the backend
is never invoked. -/
theorem C3_color_length_mismatch (d : Device) (hc : d.ctx = true) (hd : d.dev = true)
    (jcs : Option ColorSpace) (arr : List JFloat)
    (hlen : arr.length ≠ expectedChannels jcs) :
    (∀ p eo m a cp, dispatch d (Op.fillPath (some p) eo m jcs (some arr) a cp) =
      (Result.invalidArg colorLengthMsg, [])) ∧
    (∀ p st m a cp, dispatch d (Op.strokePath (some p) (some st) m jcs (some arr) a cp) =
      (Result.invalidArg colorLengthMsg, [])) ∧
    (∀ t m a cp, dispatch d (Op.fillText (some t) m jcs (some arr) a cp) =
      (Result.invalidArg colorLengthMsg, [])) ∧
    (∀ t st m a cp, dispatch d (Op.strokeText (some t) (some st) m jcs (some arr) a cp) =
      (Result.invalidArg colorLengthMsg, [])) ∧
    (∀ i m a cp, dispatch d (Op.fillImageMask (some i) m jcs (some arr) a cp) =
      (Result.invalidArg colorLengthMsg, [])) ∧
    (∀ r lum cp, dispatch d (Op.beginMask r lum jcs (some arr) cp) =
      (Result.invalidArg colorLengthMsg, [])) := by
  have hfa : from_jfloatArray (expectedChannels jcs) (some arr) = false := by
    simpa [from_jfloatArray] using hlen
  refine ⟨?_, ?_, ?_, ?_, ?_, ?_⟩ <;> intros <;>
    simp [dispatch, NativeDevice_fillPath, NativeDevice_strokePath, NativeDevice_fillText,
      NativeDevice_strokeText, NativeDevice_fillImageMask, NativeDevice_beginMask,
      hc, hd, hfa]

theorem C3_witness :
    dispatch dPlain (Op.fillPath (some path0) false m0 (some csGray) (some [1, 2]) 0 cp0) =
      (Result.invalidArg colorLengthMsg, []) :=
  (C3_color_length_mismatch dPlain rfl rfl (some csGray) [1, 2] (by decide)).1
    path0 false m0 0 cp0

/-- C4: for every dispatch operation on a device whose resource handle's lock
function fails, the backend is never invoked and the unlock function is never
called; whenever the lock was actually attempted, the call aborts with the lock
failure as its result. -/
theorem C4_lock_failure_aborts (d : Device) (op : Op) (info : NativeDeviceInfo)
    (h1 : d.isNativeDevice = true) (h2 : d.nativeInfo = some info)
    (h3 : info.lockFails = true) :
    countIf isBackend (dispatch d op).2 = 0 ∧
    countIf isUnlock (dispatch d op).2 = 0 ∧
    (countIf isLock (dispatch d op).2 ≠ 0 → (dispatch d op).1 = Result.lockFailed) := by
  rcases dispatch_shape d op with ⟨he, _, _⟩ | ⟨bop, rel, heq, _, _, _⟩
  · rw [he]; exact ⟨rfl, rfl, by simp [countIf]⟩
  · rw [heq, runLockedRel_fail d info bop rel h1 h2 h3]
    exact ⟨rfl, rfl, fun _ => rfl⟩

theorem C4_witness :
    countIf isBackend (dispatch dLockErr Op.popClip).2 = 0 ∧
    countIf isUnlock (dispatch dLockErr Op.popClip).2 = 0 ∧
    (countIf isLock (dispatch dLockErr Op.popClip).2 ≠ 0 →
      (dispatch dLockErr Op.popClip).1 = Result.lockFailed) :=
  C4_lock_failure_aborts dLockErr Op.popClip infoBad rfl rfl rfl

/-- C7: for every dispatch operation on a device with no resource handle (the object
is not a NativeDevice, or the stored info pointer is absent), no lock and no unlock
calls occur, the absence is not an error (the result is never a lock failure), and
whenever the backend was reached the result is exactly the backend's verdict. -/
theorem C7_no_handle_no_locking (d : Device) (op : Op)
    (h : d.isNativeDevice = false ∨ d.nativeInfo = none) :
    countIf isLock (dispatch d op).2 = 0 ∧
    countIf isUnlock (dispatch d op).2 = 0 ∧
    (dispatch d op).1 ≠ Result.lockFailed ∧
    (countIf isBackend (dispatch d op).2 ≠ 0 →
      (dispatch d op).1 = (if d.backendFails then Result.backendError else Result.ok)) := by
  rcases dispatch_shape d op with ⟨he, hnl, _⟩ | ⟨bop, rel, heq, hl, hu, _⟩
  · exact ⟨by rw [he]; rfl, by rw [he]; rfl, hnl, by rw [he]; simp [countIf]⟩
  · rw [heq, runLockedRel_nohandle d bop rel h]
    refine ⟨?_, ?_, ?_, fun _ => rfl⟩
    · show countIf isLock ([Event.backendCall bop] ++ rel) = 0
      simp only [countIf_append, hl]
      rfl
    · show countIf isUnlock ([Event.backendCall bop] ++ rel) = 0
      simp only [countIf_append, hu]
      rfl
    · cases hbf : d.backendFails <;> simp [hbf]

theorem C7_witness :
    countIf isLock (dispatch dPlain Op.endGroup).2 = 0 ∧
    countIf isUnlock (dispatch dPlain Op.endGroup).2 = 0 ∧
    (dispatch dPlain Op.endGroup).1 ≠ Result.lockFailed ∧
    (countIf isBackend (dispatch dPlain Op.endGroup).2 ≠ 0 →
      (dispatch dPlain Op.endGroup).1 =
        (if dPlain.backendFails then Result.backendError else Result.ok)) :=
  C7_no_handle_no_locking dPlain Op.endGroup (Or.inl rfl)

/-- C8: every dispatch operation on a stale device — missing context or missing
backend device pointer — returns immediately as a no-op: the result is a plain
return (no validation error) and the trace is empty (no lock, no backend). -/
theorem C8_stale_device_noop (d : Device) (op : Op) (h : d.ctx = false ∨ d.dev = false) :
    dispatch d op = (Result.ok, []) := by
  have hc : (!d.ctx || !d.dev) = true := by rcases h with h | h <;> simp [h]
  cases op <;>
    simp [dispatch, NativeDevice_close, NativeDevice_fillPath, NativeDevice_strokePath,
      NativeDevice_clipPath, NativeDevice_clipStrokePath, NativeDevice_fillText,
      NativeDevice_strokeText, NativeDevice_clipText, NativeDevice_clipStrokeText,
      NativeDevice_ignoreText, NativeDevice_fillShade, NativeDevice_fillImage,
      NativeDevice_fillImageMask, NativeDevice_clipImageMask, NativeDevice_popClip,
      NativeDevice_beginLayer, NativeDevice_endLayer, NativeDevice_beginMask,
      NativeDevice_endMask, NativeDevice_beginGroup, NativeDevice_endGroup,
      NativeDevice_beginTile, NativeDevice_endTile, hc]

theorem C8_witness : dispatch dStale Op.endMask = (Result.ok, []) :=
  C8_stale_device_noop dStale Op.endMask (Or.inl rfl)

/-- C5: the claim fails on the code.  NativeDevice_beginGroup resolves the colorspace
with from_ColorSpace(env, self) — the device object itself, source line 569 — and
never reads its jcs parameter: passing an RGB colorspace still hands the backend the
device's own (non-)colorspace, and passing no colorspace produces the identical
call. -/
theorem C5_beginGroup_colorspace_bug :
    dispatch dPlain (Op.beginGroup rect0 (some csRGB) true false 0 1) =
      (Result.ok, [Event.backendCall (BackendOp.beginGroup rect0 none true false 0 1)]) ∧
    dispatch dPlain (Op.beginGroup rect0 none true false 0 1) =
      dispatch dPlain (Op.beginGroup rect0 (some csRGB) true false 0 1) := by
  exact ⟨rfl, rfl⟩

/-- C9: the claim fails on the code.  With a NULL name, NativeDevice_beginLayer does
follow the lock / backend / release / unlock protocol, but the name it hands to
fz_begin_layer is the local `const char *name` that was never initialized (and
ReleaseStringUTFChars runs with the NULL jname): the backend receives an
indeterminate value, not a well-defined "no name". -/
theorem C9_beginLayer_uninitialized_name :
    dispatch dLocked (Op.beginLayer none) =
      (Result.ok,
        [Event.lockCall, Event.backendCall (BackendOp.beginLayer CString.uninit),
          Event.releaseString none CString.uninit, Event.unlockCall]) := by
  rfl

/-- C6 counterexample: invoking NativeDevice_finalize twice on the same device state
releases the pixmap twice and frees the info storage twice — the finalizer never
clears the stored nativeInfo pointer, so the second invocation repeats the release. -/
theorem C6_double_finalize_counterexample :
    countIf isDropPixmap
        ((NativeDevice_finalize finS).2 ++
          (NativeDevice_finalize (NativeDevice_finalize finS).1).2) = 2 ∧
    countIf isFreeInfo
        ((NativeDevice_finalize finS).2 ++
          (NativeDevice_finalize (NativeDevice_finalize finS).1).2) = 2 := by
  exact ⟨rfl, rfl⟩

/-- C6 amended: each run of the finalizer on a device with a live context and a
non-null stored native-info pointer releases the pixmap and the info storage once
and leaves the stored pointer unchanged; release-at-most-once therefore relies on
the runtime invoking the finalizer at most once, and a second direct invocation
releases again. -/
theorem C6_finalize_releases_and_keeps_pointer (s : FinState) (info : NativeDeviceInfo)
    (h1 : s.ctx = true) (h2 : s.nativeInfo = some info) :
    NativeDevice_finalize s =
      (s, [FinEvent.superFinalize, FinEvent.dropPixmap, FinEvent.freeInfo]) := by
  simp [NativeDevice_finalize, h1, h2]

theorem C6_witness :
    NativeDevice_finalize finS =
      (finS, [FinEvent.superFinalize, FinEvent.dropPixmap, FinEvent.freeInfo]) :=
  C6_finalize_releases_and_keeps_pointer finS info0 rfl rfl

/-- C10: NativeDevice_beginTile returns the integer 0 — not the backend's cache
token — when the device is stale, when the lock fails, and when the backend call
errors; the backend's cache-identity integer is surfaced only when the call fully
succeeds. -/
theorem C10_beginTile_error_returns_zero (d : Device) (jarea : Rect) (jview : Rect)
    (xstep : JFloat) (ystep : JFloat) (jctm : Matrix) (id : Int) :
    ((d.ctx = false ∨ d.dev = false) →
      NativeDevice_beginTile d jarea jview xstep ystep jctm id = (0, Result.ok, [])) ∧
    ((NativeDevice_beginTile d jarea jview xstep ystep jctm id).2.1 = Result.lockFailed →
      (NativeDevice_beginTile d jarea jview xstep ystep jctm id).1 = 0) ∧
    ((NativeDevice_beginTile d jarea jview xstep ystep jctm id).2.1 = Result.backendError →
      (NativeDevice_beginTile d jarea jview xstep ystep jctm id).1 = 0) ∧
    (d.ctx = true → d.dev = true →
      (NativeDevice_beginTile d jarea jview xstep ystep jctm id).2.1 = Result.ok →
      (NativeDevice_beginTile d jarea jview xstep ystep jctm id).1 = d.backendTileValue) := by
  cases hcd : (!d.ctx || !d.dev) with
  | true =>
    refine ⟨fun _ => by simp [NativeDevice_beginTile, hcd], ?_, ?_, ?_⟩
    · intro h; simp [NativeDevice_beginTile, hcd] at h
    · intro h; simp [NativeDevice_beginTile, hcd] at h
    · intro h1 h2 _; simp [h1, h2] at hcd
  | false =>
    refine ⟨?_, ?_, ?_, ?_⟩
    · intro h; exfalso; rcases h with h | h <;> simp [h] at hcd
    · intro h
      simp only [NativeDevice_beginTile, hcd] at h ⊢
      simp at h ⊢
      simp [h]
    · intro h
      simp only [NativeDevice_beginTile, hcd] at h ⊢
      simp at h ⊢
      simp [h]
    · intro _ _ h
      simp only [NativeDevice_beginTile, hcd] at h ⊢
      simp at h ⊢
      simp [h]

theorem C10_witness :
    NativeDevice_beginTile dStale rect0 rect0 0 0 m0 7 = (0, Result.ok, []) ∧
    (NativeDevice_beginTile dTile rect0 rect0 0 0 m0 7).1 = 42 :=
  ⟨(C10_beginTile_error_returns_zero dStale rect0 rect0 0 0 m0 7).1 (Or.inl rfl),
   (C10_beginTile_error_returns_zero dTile rect0 rect0 0 0 m0 7).2.2.2 rfl rfl rfl⟩

end NativeDev
